import Mathlib

/-!
Shallow embedding of the `aim` run-control subsystem:

* `src/aim/sdk/control/interfaces.py`       — `Command`, `CommandStatus`
* `src/aim/sdk/control/command_store.py`    — `CommandStore`
* `src/aim/web/api/control/views.py`        — `ClientConnection`,
  `ControlConnectionManager`, `control_websocket` message loop
* `src/aim/ext/transport/control_client.py` — `ControlClient.poll_commands`

Python dicts are modelled as association lists where the first binding for a
key is the current one (`dictInsert` prepends, `dictRemove` drops every
binding of the key, `dictLookup` returns the first).  Python sets of client
ids are modelled as duplicate-free lists (`setAdd`, `setDiscard`).  Network
sends are modelled by an oracle `sendOk : String → Bool` saying whether
`websocket.send_json` to a given client succeeds, and each operation returns
the list of frames it actually delivered.  Wall-clock fields
(`connected_at`, `last_ping`), logging and the asyncio lock (all operations
are modelled atomically, as the lock makes them) are outside the embedding.
-/

/-- `CommandStatus` enumeration from `interfaces.py`. -/
inductive CommandStatus where
  | pending
  | acknowledged
  | completed
  | failed
deriving DecidableEq, Repr

/-- `CommandStatus(value)` — the enum constructor: `some` on one of the four
string values, otherwise Python raises `ValueError`, modelled by `none`. -/
def CommandStatus.ofString : String → Option CommandStatus
  | "pending" => some .pending
  | "acknowledged" => some .acknowledged
  | "completed" => some .completed
  | "failed" => some .failed
  | _ => none

/-- Opaque key/value payload dict carried by a command. -/
abbrev Payload := List (String × String)

/-- `Command` record from `interfaces.py`. -/
structure Command where
  id : String
  run_hash : String
  type : String
  payload : Payload
  status : CommandStatus
deriving DecidableEq, Repr

/-- An incoming JSON object, with the fields the handlers read via
`data['k']` / `data.get('k')`; a missing key is `none`. -/
structure FrameData where
  id : Option String := none
  run_hash : Option String := none
  type : Option String := none
  payload : Option Payload := none
  status : Option String := none
  error_message : Option String := none
deriving DecidableEq, Repr

/-- Python exceptions raised by the handlers and caught by the websocket
loop as `except (KeyError, TypeError, ValueError)`. -/
inductive PyError where
  | keyError (key : String)
  | valueError (msg : String)
deriving DecidableEq, Repr

/-- `str(e)` for the error frame message (modelled as the carried string). -/
def pyErrorMessage : PyError → String
  | .keyError k => k
  | .valueError m => m

/-- `Command.from_dict(data)`: `data['id']`, `data['type']`, `data['run_hash']`
raise `KeyError` when missing (in that order); `payload` defaults to the empty
dict; `CommandStatus(data.get('status', 'pending'))` raises `ValueError` on an
unknown status string. -/
def Command.from_dict (data : FrameData) : Except PyError Command :=
  match data.id with
  | none => .error (.keyError "id")
  | some i =>
    match data.type with
    | none => .error (.keyError "type")
    | some t =>
      match data.run_hash with
      | none => .error (.keyError "run_hash")
      | some r =>
        match CommandStatus.ofString ((data.status).getD "pending") with
        | none => .error (.valueError ((data.status).getD "pending"))
        | some s =>
          .ok { id := i, run_hash := r, type := t,
                payload := (data.payload).getD [], status := s }

/-- First binding of `k` in an association list (Python `d[k]` / `d.get(k)`). -/
def dictLookup {α : Type} : List (String × α) → String → Option α
  | [], _ => none
  | (k2, v) :: rest, k => if k2 = k then some v else dictLookup rest k

/-- `d[k] = v`: the new binding shadows any old one. -/
def dictInsert {α : Type} (d : List (String × α)) (k : String) (v : α) :
    List (String × α) :=
  (k, v) :: d

/-- `d.pop(k, None)` dropping the binding: every (shadowed) binding of `k`
goes, so `k` is no longer a key. -/
def dictRemove {α : Type} : List (String × α) → String → List (String × α)
  | [], _ => []
  | (k2, v) :: rest, k =>
    if k2 = k then dictRemove rest k else (k2, v) :: dictRemove rest k

/-- Python `set.add`: no-op when the element is present. -/
def setAdd (s : List String) (x : String) : List String :=
  if x ∈ s then s else s ++ [x]

/-- Python `set.discard`: removes the element, no-op when absent. -/
def setDiscard : List String → String → List String
  | [], _ => []
  | y :: rest, x =>
    if y = x then setDiscard rest x else y :: setDiscard rest x

/-- `l[n]` as an option (indices produced by the store are always in range). -/
def listNth {α : Type} : List α → Nat → Option α
  | [], _ => none
  | x :: _, 0 => some x
  | _ :: rest, n + 1 => listNth rest n

/-- `self.command_history[index].status = new_status`: in-place status
mutation of the record at `index` (indices out of range cannot be produced
by the store, see `add_command`). -/
def setStatusAt : List Command → Nat → CommandStatus → List Command
  | [], _, _ => []
  | c :: rest, 0, st => { c with status := st } :: rest
  | c :: rest, n + 1, st => c :: setStatusAt rest n st

/-- `CommandStore` from `command_store.py`: an append-only history plus an
id → index dict. -/
structure CommandStore where
  command_history : List Command
  command_dict : List (String × Nat)
deriving DecidableEq, Repr

/-- `CommandStore()` constructor. -/
def CommandStore.init : CommandStore :=
  { command_history := [], command_dict := [] }

/-- `add_command`: appends to the history and points the id at
`len(self.command_history) - 1`.  There is no duplicate-id check. -/
def CommandStore.add_command (s : CommandStore) (command : Command) :
    CommandStore :=
  let history := s.command_history ++ [command]
  { command_history := history,
    command_dict := dictInsert s.command_dict command.id (history.length - 1) }

/-- `update_command_status`: if the id is known, overwrite the status of the
record at its index; `result` and `error_message` are accepted and ignored.
An unknown id only logs a warning. -/
def CommandStore.update_command_status (s : CommandStore) (command_id : String)
    (new_status : CommandStatus) (result : Option Payload)
    (error_message : Option String) : CommandStore :=
  match dictLookup s.command_dict command_id with
  | some index =>
    { s with command_history := setStatusAt s.command_history index new_status }
  | none => s

/-- `get_command`: the record at the indexed position, or `None` (logged)
for an unknown id. -/
def CommandStore.get_command (s : CommandStore) (command_id : String) :
    Option Command :=
  match dictLookup s.command_dict command_id with
  | some index => listNth s.command_history index
  | none => none

/-- `ClientConnection` from `views.py` (socket handle and the two wall-clock
timestamps are outside the embedding; `run_hash` is `Optional[str]`). -/
structure ClientConnection where
  client_id : String
  connection_type : String
  run_hash : Option String
deriving DecidableEq, Repr

/-- `ConnectionType.TRAINING`. -/
def ConnectionType.TRAINING : String := "training"

/-- `ConnectionType.UI`. -/
def ConnectionType.UI : String := "ui"

/-- `ConnectionType.API`. -/
def ConnectionType.API : String := "api"

/-- A frame written to some websocket.  `commandMsg c` stands for
`command.to_dict()`, `commandUpdate c` for
`{'type': 'command_update', 'data': command.to_dict()}`, and
`errorMsg code msg` for `{'type': 'error', 'error': code, 'message': msg}`. -/
inductive WsMessage where
  | commandMsg (c : Command)
  | commandUpdate (c : Command)
  | errorMsg (code : String) (message : String)
deriving DecidableEq, Repr

/-- `ControlConnectionManager` state: the owned `CommandStore`, the global
client-id dict and the per-run `defaultdict(set)` of client ids. -/
structure ControlConnectionManager where
  command_store : CommandStore
  _connections : List (String × ClientConnection)
  _run_connections : List (String × List String)
deriving DecidableEq, Repr

/-- `ControlConnectionManager(CommandStore())` with empty registries. -/
def ControlConnectionManager.init : ControlConnectionManager :=
  { command_store := CommandStore.init, _connections := [],
    _run_connections := [] }

/-- Reading `self._run_connections[r]` where a missing run means the empty
set (`defaultdict(set)` read, or `.get(r, set())`). -/
def runConnsGet (m : List (String × List String)) (r : String) : List String :=
  (dictLookup m r).getD []

/-- `connect`: accepts the socket, builds a `ClientConnection` and inserts it
into both the global map and the per-run set, returning the client id.  The
id comes from `uuid.uuid4()`, modelled as the explicit argument `client_id`
(uuid4 collisions are assumed away, so theorems needing freshness take it as
a hypothesis).  No validation of `connection_type` happens here. -/
def ControlConnectionManager.connect (mgr : ControlConnectionManager)
    (client_id run_hash connection_type : String) :
    ControlConnectionManager × String :=
  let connection : ClientConnection :=
    { client_id := client_id, connection_type := connection_type,
      run_hash := some run_hash }
  ({ mgr with
      _connections := dictInsert mgr._connections client_id connection,
      _run_connections := dictInsert mgr._run_connections run_hash
        (setAdd (runConnsGet mgr._run_connections run_hash) client_id) },
   client_id)

/-- `disconnect`: `pop(client_id, None)`; when a connection was found *and*
its `run_hash` is truthy (non-`None`, non-empty), also discard the id from
that run's set (a `defaultdict` read, so an entry for the run is (re)written
even when it was absent).  A missing id is a silent no-op. -/
def ControlConnectionManager.disconnect (mgr : ControlConnectionManager)
    (client_id : String) : ControlConnectionManager :=
  match dictLookup mgr._connections client_id with
  | none => mgr
  | some connection =>
    match connection.run_hash with
    | none => { mgr with _connections := dictRemove mgr._connections client_id }
    | some r =>
      if r = "" then
        { mgr with _connections := dictRemove mgr._connections client_id }
      else
        { mgr with
            _connections := dictRemove mgr._connections client_id,
            _run_connections := dictInsert mgr._run_connections r
              (setDiscard (runConnsGet mgr._run_connections r) client_id) }

/-- `_get_training_clients`: ids registered for the run whose connection is
of type `training`.  (Python indexes `self._connections[cid]` directly; by
the registry invariant every id in a run set is in the global map, and an
id violating it is filtered out here.) -/
def ControlConnectionManager._get_training_clients
    (mgr : ControlConnectionManager) (run_hash : String) : List String :=
  (runConnsGet mgr._run_connections run_hash).filter (fun cid =>
    match dictLookup mgr._connections cid with
    | some connection =>
      decide (connection.connection_type = ConnectionType.TRAINING)
    | none => false)

/-- `_get_ui_clients`: ids registered for the run whose connection is of
type `ui`. -/
def ControlConnectionManager._get_ui_clients
    (mgr : ControlConnectionManager) (run_hash : String) : List String :=
  (runConnsGet mgr._run_connections run_hash).filter (fun cid =>
    match dictLookup mgr._connections cid with
    | some connection =>
      decide (connection.connection_type = ConnectionType.UI)
    | none => false)

/-- `_send_to_client`: look the connection up; silently return when absent;
otherwise `send_json` — on failure (oracle `sendOk cid = false`) the client
is disconnected and nothing is delivered.  Returns the delivered
`(client_id, frame)` pairs. -/
def ControlConnectionManager._send_to_client (mgr : ControlConnectionManager)
    (sendOk : String → Bool) (client_id : String) (message : WsMessage) :
    ControlConnectionManager × List (String × WsMessage) :=
  match dictLookup mgr._connections client_id with
  | none => (mgr, [])
  | some _ =>
    if sendOk client_id then (mgr, [(client_id, message)])
    else (mgr.disconnect client_id, [])

/-- The `for client_id in clients: await self._send_to_client(...)` loops of
`send_command_to_training` and `_broadcast_command_update`. -/
def ControlConnectionManager.sendToEach (mgr : ControlConnectionManager)
    (sendOk : String → Bool) (clients : List String) (message : WsMessage) :
    ControlConnectionManager × List (String × WsMessage) :=
  match clients with
  | [] => (mgr, [])
  | cid :: rest =>
    let step := mgr._send_to_client sendOk cid message
    let next := step.1.sendToEach sendOk rest message
    (next.1, step.2 ++ next.2)

/-- `send_command_to_training`: stores the command first, then snapshots the
training clients of the run; with none connected it returns `False`
(delivery never attempted); otherwise it sends `command.to_dict()` to each
and returns `True` (even if individual sends fail). -/
def ControlConnectionManager.send_command_to_training
    (mgr : ControlConnectionManager) (sendOk : String → Bool)
    (run_hash : String) (command : Command) :
    ControlConnectionManager × Bool × List (String × WsMessage) :=
  let mgr1 :=
    { mgr with command_store := mgr.command_store.add_command command }
  let training_clients := mgr1._get_training_clients run_hash
  if training_clients.isEmpty then (mgr1, false, [])
  else
    let sent := mgr1.sendToEach sendOk training_clients
      (WsMessage.commandMsg command)
    (sent.1, true, sent.2)

/-- `_broadcast_command_update`: send a `command_update` frame to every UI
client of the command's run. -/
def ControlConnectionManager._broadcast_command_update
    (mgr : ControlConnectionManager) (sendOk : String → Bool)
    (command : Command) : ControlConnectionManager × List (String × WsMessage) :=
  mgr.sendToEach sendOk (mgr._get_ui_clients command.run_hash)
    (WsMessage.commandUpdate command)

/-- `handle_command_status_update`: update the store, then re-read the
command; only when found, broadcast to the UI clients of its run.
`command_id` is `Option String` because the caller passes `data.get('id')`:
`None` is never a dict key, so both the update and the lookup miss. -/
def ControlConnectionManager.handle_command_status_update
    (mgr : ControlConnectionManager) (sendOk : String → Bool)
    (command_id : Option String) (status : CommandStatus)
    (result : Option Payload) (error_message : Option String) :
    ControlConnectionManager × List (String × WsMessage) :=
  let store2 :=
    match command_id with
    | some cid =>
      mgr.command_store.update_command_status cid status result error_message
    | none => mgr.command_store
  let mgr2 := { mgr with command_store := store2 }
  match (match command_id with
         | some cid => store2.get_command cid
         | none => none) with
  | none => (mgr2, [])
  | some command => mgr2._broadcast_command_update sendOk command

/-- `handle_training_message`: `CommandStatus(data.get('status'))` raises
`ValueError` for `None` or an unknown string; otherwise forwards to
`handle_command_status_update` with `data.get('id')`, `data.get('payload')`
and `data.get('error_message')`. -/
def handle_training_message (mgr : ControlConnectionManager)
    (sendOk : String → Bool) (data : FrameData) :
    Except PyError (ControlConnectionManager × List (String × WsMessage)) :=
  match data.status with
  | none => .error (.valueError "None is not a valid CommandStatus")
  | some s =>
    match CommandStatus.ofString s with
    | none => .error (.valueError s)
    | some st =>
      .ok (mgr.handle_command_status_update sendOk data.id st data.payload
            data.error_message)

/-- `handle_ui_message`: only a frame with `type == 'command'` does
anything — it is parsed by `Command.from_dict` (whose `KeyError` /
`ValueError` propagate) and handed to `send_command_to_training`, whose
boolean result is discarded. -/
def handle_ui_message (mgr : ControlConnectionManager)
    (sendOk : String → Bool) (run_hash : String) (data : FrameData) :
    Except PyError (ControlConnectionManager × List (String × WsMessage)) :=
  if data.type = some "command" then
    match Command.from_dict data with
    | .error e => .error e
    | .ok command =>
      let r := mgr.send_command_to_training sendOk run_hash command
      .ok (r.1, r.2.2)
  else
    .ok (mgr, [])

/-- One frame received by `control_websocket`: either `receive_json` raised
`ValueError` (malformed JSON) or it produced an object. -/
inductive Frame where
  | malformed
  | wellFormed (data : FrameData)
deriving DecidableEq, Repr

/-- A frame written by the loop: to this very socket (error replies) or to a
registered client (routed messages). -/
inductive LoopOut where
  | toSelf (m : WsMessage)
  | toClient (cid : String) (m : WsMessage)
deriving DecidableEq, Repr

/-- One iteration of the `while True` body of `control_websocket`: malformed
JSON is answered with an `invalid_json` error frame and `continue`; a
well-formed frame is dispatched on the declared `client_type`, handler
`KeyError`/`TypeError`/`ValueError` becoming a `bad_request` error frame; any
other `client_type` (including `api`) gets an `unknown_client_type` error
frame.  No branch closes the socket or touches the registries directly. -/
def handleFrame (client_type run_hash : String) (sendOk : String → Bool)
    (mgr : ControlConnectionManager) (frame : Frame) :
    ControlConnectionManager × List LoopOut :=
  match frame with
  | .malformed =>
    (mgr, [.toSelf (.errorMsg "invalid_json" "Failed to parse JSON message")])
  | .wellFormed data =>
    if client_type = ConnectionType.TRAINING then
      match handle_training_message mgr sendOk data with
      | .ok r => (r.1, r.2.map (fun p => .toClient p.1 p.2))
      | .error e =>
        (mgr, [.toSelf (.errorMsg "bad_request" (pyErrorMessage e))])
    else if client_type = ConnectionType.UI then
      match handle_ui_message mgr sendOk run_hash data with
      | .ok r => (r.1, r.2.map (fun p => .toClient p.1 p.2))
      | .error e =>
        (mgr, [.toSelf (.errorMsg "bad_request" (pyErrorMessage e))])
    else
      (mgr, [.toSelf (.errorMsg "unknown_client_type"
        ("Unknown client type: " ++ client_type))])

/-- The `while True` receive loop of `control_websocket` over a finite trace
of incoming frames, accumulating the frames it writes out. -/
def controlLoop (client_type run_hash : String) (sendOk : String → Bool)
    (mgr : ControlConnectionManager) :
    List Frame → ControlConnectionManager × List LoopOut
  | [] => (mgr, [])
  | f :: rest =>
    let step := handleFrame client_type run_hash sendOk mgr f
    let next := controlLoop client_type run_hash sendOk step.1 rest
    (next.1, step.2 ++ next.2)

/-- `ControlClient.poll_commands` (`control_client.py`): drain the in-memory
FIFO with `get_nowait` until empty, appending in dequeue order; no blocking
wait, no I/O.  The queue is a list with the oldest element first (`put`
appends at the tail); the result is `(drained commands, remaining queue)`. -/
def poll_commands : List Command → List Command × List Command
  | [] => ([], [])
  | c :: rest =>
    let r := poll_commands rest
    (c :: r.1, r.2)

/-! ### Helper lemmas -/

theorem dictLookup_dictInsert_self {α : Type} (d : List (String × α))
    (k : String) (v : α) : dictLookup (dictInsert d k v) k = some v := by
  simp [dictLookup, dictInsert]

theorem dictLookup_dictRemove {α : Type} (d : List (String × α)) (k : String) :
    dictLookup (dictRemove d k) k = none := by
  induction d with
  | nil => rfl
  | cons p rest ih =>
    by_cases h : p.1 = k
    · simp [dictRemove, h, ih]
    · simp [dictRemove, h, dictLookup, ih]

theorem setDiscard_not_mem (s : List String) (x : String) :
    x ∉ setDiscard s x := by
  induction s with
  | nil => simp [setDiscard]
  | cons y rest ih =>
    by_cases h : y = x
    · simpa [setDiscard, h] using ih
    · simp [setDiscard, h, ih, Ne.symm h]

theorem setAdd_mem (s : List String) (x : String) : x ∈ setAdd s x := by
  by_cases h : x ∈ s
  · simp [setAdd, h]
  · simp [setAdd, h]

theorem listNth_append_length {α : Type} (l : List α) (c : α) :
    listNth (l ++ [c]) l.length = some c := by
  induction l with
  | nil => rfl
  | cons x rest ih => simpa [listNth] using ih

theorem length_setStatusAt (l : List Command) (n : Nat) (st : CommandStatus) :
    (setStatusAt l n st).length = l.length := by
  induction l generalizing n with
  | nil => rfl
  | cons c rest ih =>
    cases n with
    | zero => simp [setStatusAt]
    | succ m => simp [setStatusAt, ih]

theorem listNth_setStatusAt_self (l : List Command) (n : Nat) (r : Command)
    (st : CommandStatus) (h : listNth l n = some r) :
    listNth (setStatusAt l n st) n = some { r with status := st } := by
  induction l generalizing n with
  | nil => simp [listNth] at h
  | cons c rest ih =>
    cases n with
    | zero =>
      simp [listNth] at h
      simp [setStatusAt, listNth, h]
    | succ m =>
      simp [listNth] at h
      simpa [setStatusAt, listNth] using ih m h

theorem listNth_setStatusAt_ne (l : List Command) (n j : Nat)
    (st : CommandStatus) (h : j ≠ n) :
    listNth (setStatusAt l n st) j = listNth l j := by
  induction l generalizing n j with
  | nil => rfl
  | cons c rest ih =>
    cases n with
    | zero =>
      cases j with
      | zero => exact absurd rfl h
      | succ i => simp [setStatusAt, listNth]
    | succ m =>
      cases j with
      | zero => simp [setStatusAt, listNth]
      | succ i =>
        simpa [setStatusAt, listNth] using ih m i (by omega)

theorem update_command_status_unknown (s : CommandStore) (cid : String)
    (st : CommandStatus) (res : Option Payload) (err : Option String)
    (h : dictLookup s.command_dict cid = none) :
    s.update_command_status cid st res err = s := by
  simp [CommandStore.update_command_status, h]

theorem get_command_update_known (s : CommandStore) (cid : String) (n : Nat)
    (r : Command) (st : CommandStatus) (res : Option Payload)
    (err : Option String) (h1 : dictLookup s.command_dict cid = some n)
    (h2 : listNth s.command_history n = some r) :
    (s.update_command_status cid st res err).get_command cid =
      some { r with status := st } := by
  simp [CommandStore.update_command_status, h1, CommandStore.get_command]
  exact listNth_setStatusAt_self _ _ _ _ h2

theorem dictLookup_add_command (s : CommandStore) (c : Command) :
    dictLookup (s.add_command c).command_dict c.id =
      some s.command_history.length := by
  simp [CommandStore.add_command, dictLookup_dictInsert_self]

theorem get_command_add_self (s : CommandStore) (c : Command) :
    (s.add_command c).get_command c.id = some c := by
  simp [CommandStore.get_command, CommandStore.add_command,
    dictLookup_dictInsert_self]
  exact listNth_append_length _ _

theorem disconnect_command_store (mgr : ControlConnectionManager)
    (cid : String) : (mgr.disconnect cid).command_store = mgr.command_store := by
  unfold ControlConnectionManager.disconnect
  split
  · rfl
  · split
    · rfl
    · split <;> rfl

theorem send_to_client_command_store (mgr : ControlConnectionManager)
    (sendOk : String → Bool) (cid : String) (message : WsMessage) :
    (mgr._send_to_client sendOk cid message).1.command_store =
      mgr.command_store := by
  unfold ControlConnectionManager._send_to_client
  cases dictLookup mgr._connections cid with
  | none => rfl
  | some c =>
    by_cases h : sendOk cid <;> simp [h, disconnect_command_store]

theorem sendToEach_command_store (mgr : ControlConnectionManager)
    (sendOk : String → Bool) (clients : List String) (message : WsMessage) :
    (mgr.sendToEach sendOk clients message).1.command_store =
      mgr.command_store := by
  induction clients generalizing mgr with
  | nil => rfl
  | cons cid rest ih =>
    simp [ControlConnectionManager.sendToEach, ih,
      send_to_client_command_store]

/-! ### Concrete fixtures -/

/-- A freshly issued pause command, as `Command.from_dict` builds it from a
UI `command` frame without a `status` key. -/
def cmdPause : Command :=
  { id := "c1", run_hash := "r1", type := "command", payload := [],
    status := .pending }

/-- First command with id `x`. -/
def cmdDupA : Command :=
  { id := "x", run_hash := "r1", type := "command", payload := [],
    status := .pending }

/-- A different command reusing id `x`. -/
def cmdDupB : Command :=
  { id := "x", run_hash := "r1", type := "command",
    payload := [("action", "resume")], status := .pending }

/-- A command already in the terminal `completed` state. -/
def cmdDone : Command :=
  { id := "x", run_hash := "r1", type := "command", payload := [],
    status := .completed }

/-- A store holding exactly `cmdDone`. -/
def storeDone : CommandStore := CommandStore.init.add_command cmdDone

/-- A store holding exactly `cmdPause`. -/
def storeOne : CommandStore := CommandStore.init.add_command cmdPause

/-- The fold of `update_command_status` calls on one id, as in repeated
`status_update` frames for the same command. -/
def applyUpdates (s : CommandStore) (cid : String)
    (updates : List (CommandStatus × Option Payload × Option String)) :
    CommandStore :=
  updates.foldl (fun st u => st.update_command_status cid u.1 u.2.1 u.2.2) s

theorem applyUpdates_get
    (updates : List (CommandStatus × Option Payload × Option String))
    (s : CommandStore) (cid : String) (n : Nat) (r : Command)
    (h1 : dictLookup s.command_dict cid = some n)
    (h2 : listNth s.command_history n = some r) :
    (applyUpdates s cid updates).get_command cid =
      some { r with status := updates.foldl (fun _ u => u.1) r.status } := by
  induction updates generalizing s r with
  | nil => simp [applyUpdates, CommandStore.get_command, h1, h2]
  | cons u rest ih =>
    have hstep : s.update_command_status cid u.1 u.2.1 u.2.2 =
        { s with command_history := setStatusAt s.command_history n u.1 } := by
      simp [CommandStore.update_command_status, h1]
    have h2' : listNth
        ({ s with command_history := setStatusAt s.command_history n u.1 } :
          CommandStore).command_history n = some { r with status := u.1 } :=
      listNth_setStatusAt_self _ _ _ _ h2
    have hrec := ih { s with
        command_history := setStatusAt s.command_history n u.1 }
      { r with status := u.1 } h1 h2'
    simpa [applyUpdates, hstep] using hrec

/-! ### Claim theorems -/

/-- Claim C9: `poll_commands` returns every enqueued command in FIFO order,
leaves the queue empty, and on an empty queue returns the empty list.  (The
source loop is a pure in-memory drain: `get_nowait` only, no blocking wait,
no I/O.) -/
theorem poll_commands_drains_fifo (q : List Command) :
    (poll_commands q).1 = q ∧ (poll_commands q).2 = [] ∧
    poll_commands [] = ([], []) := by
  refine ⟨?_, ?_, rfl⟩
  · induction q with
    | nil => rfl
    | cons c rest ih => simp [poll_commands, ih]
  · induction q with
    | nil => rfl
    | cons c rest ih => simp [poll_commands, ih]

/-- Claim C2, counterexample: adding `cmdDupB` whose id `x` is already held
by the store raises no `DuplicateCommandId` — it goes through and leaves two
records with id `x` in the history. -/
theorem add_duplicate_id_not_rejected :
    (((CommandStore.init.add_command cmdDupA).add_command
        cmdDupB).command_history.filter (fun c => c.id = "x")).length = 2 ∧
    (CommandStore.init.add_command cmdDupA).add_command cmdDupB ≠
      CommandStore.init.add_command cmdDupA := by decide

/-- Claim C2 (amended): `add_command` never fails; it always appends the
command to the history — so a duplicate id leaves two records with that id —
and re-points the id index to the new position, so `get_command` resolves
the id to the most recently added record. -/
theorem add_command_append_and_reindex (s : CommandStore) (c : Command) :
    (s.add_command c).command_history = s.command_history ++ [c] ∧
    dictLookup (s.add_command c).command_dict c.id =
      some s.command_history.length ∧
    (s.add_command c).get_command c.id = some c :=
  ⟨rfl, dictLookup_add_command s c, get_command_add_self s c⟩

/-- Claim C3: after `add_command c`, any finite sequence of
`update_command_status` calls on `c.id` leaves `get_command c.id` returning
the record whose status is the last update's status (or `c.status` when the
sequence is empty). -/
theorem update_status_last_write_wins (s : CommandStore) (c : Command)
    (updates : List (CommandStatus × Option Payload × Option String)) :
    (applyUpdates (s.add_command c) c.id updates).get_command c.id =
      some { c with status := updates.foldl (fun _ u => u.1) c.status } := by
  have h2 : listNth (s.add_command c).command_history
      s.command_history.length = some c := listNth_append_length _ _
  exact applyUpdates_get updates _ c.id _ c (dictLookup_add_command s c) h2

/-- Claim C4: `update_command_status` on an id absent from the store is a
no-op on the whole store, and `handle_command_status_update` for such an id
leaves the manager unchanged and broadcasts nothing to any UI connection. -/
theorem update_unknown_id_noop_no_broadcast (mgr : ControlConnectionManager)
    (sendOk : String → Bool) (cid : String) (st : CommandStatus)
    (res : Option Payload) (err : Option String)
    (h : dictLookup mgr.command_store.command_dict cid = none) :
    mgr.command_store.update_command_status cid st res err =
      mgr.command_store ∧
    mgr.handle_command_status_update sendOk (some cid) st res err =
      (mgr, []) := by
  have h0 := update_command_status_unknown mgr.command_store cid st res err h
  refine ⟨h0, ?_⟩
  simp [ControlConnectionManager.handle_command_status_update, h0,
    CommandStore.get_command, h]

/-- Witness for C4 at the empty manager and id `x`. -/
theorem update_unknown_id_noop_no_broadcast_witness :
    dictLookup ControlConnectionManager.init.command_store.command_dict "x" =
      none ∧
    (ControlConnectionManager.init.command_store.update_command_status "x"
        CommandStatus.pending none none =
      ControlConnectionManager.init.command_store ∧
    ControlConnectionManager.init.handle_command_status_update (fun _ => true)
        (some "x") CommandStatus.pending none none =
      (ControlConnectionManager.init, [])) :=
  ⟨rfl, update_unknown_id_noop_no_broadcast ControlConnectionManager.init
    (fun _ => true) "x" CommandStatus.pending none none rfl⟩

/-- Claim C5, counterexample: `cmdDone` is stored as `completed`, yet a
later `update_command_status` to `acknowledged` is applied — the stored
status no longer equals the terminal status. -/
theorem terminal_status_overwritten :
    (storeDone.get_command "x").map Command.status =
      some CommandStatus.completed ∧
    ((storeDone.update_command_status "x" CommandStatus.acknowledged none
        none).get_command "x").map Command.status =
      some CommandStatus.acknowledged ∧
    CommandStatus.acknowledged ≠ CommandStatus.completed := by decide

/-- Claim C5 (amended): an update on a command whose stored status is
terminal (`completed` or `failed`) is *not* rejected: the stored status
becomes the new status, exactly as for a non-terminal record. -/
theorem update_terminal_status_not_rejected (s : CommandStore) (cid : String)
    (n : Nat) (r : Command) (st : CommandStatus) (res : Option Payload)
    (err : Option String) (h1 : dictLookup s.command_dict cid = some n)
    (h2 : listNth s.command_history n = some r)
    (hterm : r.status = CommandStatus.completed ∨
      r.status = CommandStatus.failed) :
    (s.update_command_status cid st res err).get_command cid =
      some { r with status := st } :=
  get_command_update_known s cid n r st res err h1 h2

/-- Witness for the amended C5: the `completed` command `cmdDone` is
overwritten to `acknowledged`. -/
theorem update_terminal_status_not_rejected_witness :
    dictLookup storeDone.command_dict "x" = some 0 ∧
    listNth storeDone.command_history 0 = some cmdDone ∧
    (cmdDone.status = CommandStatus.completed ∨
      cmdDone.status = CommandStatus.failed) ∧
    (storeDone.update_command_status "x" CommandStatus.acknowledged none
        none).get_command "x" =
      some { cmdDone with status := CommandStatus.acknowledged } :=
  ⟨by decide, by decide, by decide,
    update_terminal_status_not_rejected storeDone "x" 0 cmdDone
      CommandStatus.acknowledged none none (by decide) (by decide)
      (by decide)⟩

/-- Claim C10: a status update on a known id changes nothing but the status
field of the record at that id's index: the id index, the history length,
every other record and every other field are untouched, and the `result` /
`error_message` arguments are discarded entirely. -/
theorem update_status_frame_effect (s : CommandStore) (cid : String) (n : Nat)
    (r : Command) (st : CommandStatus) (res : Option Payload)
    (err : Option String) (h1 : dictLookup s.command_dict cid = some n)
    (h2 : listNth s.command_history n = some r) :
    (s.update_command_status cid st res err).command_dict = s.command_dict ∧
    (s.update_command_status cid st res err).command_history.length =
      s.command_history.length ∧
    listNth (s.update_command_status cid st res err).command_history n =
      some { id := r.id, run_hash := r.run_hash, type := r.type,
             payload := r.payload, status := st } ∧
    (∀ j, j ≠ n →
      listNth (s.update_command_status cid st res err).command_history j =
        listNth s.command_history j) ∧
    (∀ res2 : Option Payload, ∀ err2 : Option String,
      s.update_command_status cid st res2 err2 =
        s.update_command_status cid st res err) := by
  refine ⟨?_, ?_, ?_, ?_, ?_⟩
  · simp [CommandStore.update_command_status, h1]
  · simp [CommandStore.update_command_status, h1, length_setStatusAt]
  · simpa [CommandStore.update_command_status, h1] using
      listNth_setStatusAt_self s.command_history n r st h2
  · intro j hj
    simpa [CommandStore.update_command_status, h1] using
      listNth_setStatusAt_ne s.command_history n j st hj
  · intro res2 err2
    simp [CommandStore.update_command_status, h1]

/-- Witness for C10 on the one-command store `storeOne`. -/
theorem update_status_frame_effect_witness :
    dictLookup storeOne.command_dict "c1" = some 0 ∧
    listNth storeOne.command_history 0 = some cmdPause ∧
    ((storeOne.update_command_status "c1" CommandStatus.acknowledged none
        none).command_dict = storeOne.command_dict ∧
    (storeOne.update_command_status "c1" CommandStatus.acknowledged none
        none).command_history.length = storeOne.command_history.length ∧
    listNth (storeOne.update_command_status "c1" CommandStatus.acknowledged
        none none).command_history 0 =
      some { id := cmdPause.id, run_hash := cmdPause.run_hash,
             type := cmdPause.type, payload := cmdPause.payload,
             status := CommandStatus.acknowledged } ∧
    (∀ j, j ≠ 0 →
      listNth (storeOne.update_command_status "c1"
          CommandStatus.acknowledged none none).command_history j =
        listNth storeOne.command_history j) ∧
    (∀ res2 : Option Payload, ∀ err2 : Option String,
      storeOne.update_command_status "c1" CommandStatus.acknowledged res2
          err2 =
        storeOne.update_command_status "c1" CommandStatus.acknowledged none
          none)) :=
  ⟨by decide, by decide,
    update_status_frame_effect storeOne "c1" 0 cmdPause
      CommandStatus.acknowledged none none (by decide) (by decide)⟩

/-- Claim C6: a `connect` (with a fresh uuid4 id) followed by `disconnect`
of that id leaves both the global connection map and that run's client set
without the id, the resulting state absorbs a second `disconnect`, and
`disconnect` of any id absent from the global map is a silent no-op on the
whole manager.  (`run_hash ≠ ""`: the route path parameter is never the
empty string, which Python truthiness would treat like `None`.) -/
theorem connect_disconnect_roundtrip (mgr : ControlConnectionManager)
    (client_id run_hash connection_type : String) (h : run_hash ≠ "") :
    dictLookup ((mgr.connect client_id run_hash
        connection_type).1.disconnect client_id)._connections client_id =
      none ∧
    client_id ∉ runConnsGet ((mgr.connect client_id run_hash
        connection_type).1.disconnect client_id)._run_connections run_hash ∧
    (((mgr.connect client_id run_hash connection_type).1.disconnect
        client_id).disconnect client_id) =
      ((mgr.connect client_id run_hash connection_type).1.disconnect
        client_id) ∧
    (∀ m : ControlConnectionManager, ∀ c : String,
      dictLookup m._connections c = none → m.disconnect c = m) := by
  have hnoop : ∀ m : ControlConnectionManager, ∀ c : String,
      dictLookup m._connections c = none → m.disconnect c = m := by
    intro m c hc
    simp [ControlConnectionManager.disconnect, hc]
  have hdis : ((mgr.connect client_id run_hash
      connection_type).1.disconnect client_id) =
      { (mgr.connect client_id run_hash connection_type).1 with
        _connections := dictRemove (mgr.connect client_id run_hash
          connection_type).1._connections client_id,
        _run_connections := dictInsert (mgr.connect client_id run_hash
            connection_type).1._run_connections run_hash
          (setDiscard (runConnsGet (mgr.connect client_id run_hash
            connection_type).1._run_connections run_hash) client_id) } := by
    simp [ControlConnectionManager.disconnect,
      ControlConnectionManager.connect, dictLookup, dictInsert, h]
  have h1 : dictLookup ((mgr.connect client_id run_hash
      connection_type).1.disconnect client_id)._connections client_id =
      none := by
    rw [hdis]
    exact dictLookup_dictRemove _ _
  refine ⟨h1, ?_, hnoop _ _ h1, hnoop⟩
  rw [hdis]
  simp [runConnsGet, dictInsert, dictLookup]
  exact setDiscard_not_mem _ _

/-- Witness for C6: fresh manager, client id `c1`, run `r1`, type
`training`. -/
theorem connect_disconnect_roundtrip_witness :
    ("r1" : String) ≠ "" ∧
    (dictLookup ((ControlConnectionManager.init.connect "c1" "r1"
        "training").1.disconnect "c1")._connections "c1" = none ∧
    "c1" ∉ runConnsGet ((ControlConnectionManager.init.connect "c1" "r1"
        "training").1.disconnect "c1")._run_connections "r1" ∧
    (((ControlConnectionManager.init.connect "c1" "r1"
        "training").1.disconnect "c1").disconnect "c1") =
      ((ControlConnectionManager.init.connect "c1" "r1"
        "training").1.disconnect "c1") ∧
    (∀ m : ControlConnectionManager, ∀ c : String,
      dictLookup m._connections c = none → m.disconnect c = m)) :=
  ⟨by decide, connect_disconnect_roundtrip ControlConnectionManager.init
    "c1" "r1" "training" (by decide)⟩

/-- Claim C7: a malformed frame makes the websocket loop emit exactly one
`invalid_json` error frame on the same socket, with the manager state (store
and registries) untouched, and the rest of the trace is processed exactly as
if the malformed frame had never arrived. -/
theorem malformed_frame_one_error_loop_continues
    (client_type run_hash : String) (sendOk : String → Bool)
    (mgr : ControlConnectionManager) (rest : List Frame) :
    handleFrame client_type run_hash sendOk mgr Frame.malformed =
      (mgr, [LoopOut.toSelf (WsMessage.errorMsg "invalid_json"
        "Failed to parse JSON message")]) ∧
    controlLoop client_type run_hash sendOk mgr (Frame.malformed :: rest) =
      ((controlLoop client_type run_hash sendOk mgr rest).1,
        LoopOut.toSelf (WsMessage.errorMsg "invalid_json"
          "Failed to parse JSON message") ::
          (controlLoop client_type run_hash sendOk mgr rest).2) := by
  constructor
  · rfl
  · simp [controlLoop, handleFrame]

/-- Claim C8, counterexample: connecting with the unknown type `bogus` is
*not* rejected — the connection lands in both the global and the per-run
registry (no error frame is produced by `connect` at all). -/
theorem unknown_type_registered_at_connect :
    dictLookup ((ControlConnectionManager.init.connect "c1" "r1"
        "bogus").1)._connections "c1" =
      some { client_id := "c1", connection_type := "bogus",
             run_hash := some "r1" } ∧
    "c1" ∈ runConnsGet ((ControlConnectionManager.init.connect "c1" "r1"
        "bogus").1)._run_connections "r1" := by decide

/-- Claim C8 (amended): a connection whose declared type is neither
`training` nor `ui` is accepted and registered in both registries at connect
time exactly like any other; it is each subsequently received well-formed
frame that is answered with an `unknown_client_type` error frame, the
manager state staying untouched and the socket staying open. -/
theorem unknown_type_accepted_then_errored (mgr : ControlConnectionManager)
    (sendOk : String → Bool) (client_id run_hash client_type : String)
    (data : FrameData) (h1 : client_type ≠ ConnectionType.TRAINING)
    (h2 : client_type ≠ ConnectionType.UI) :
    dictLookup (mgr.connect client_id run_hash
        client_type).1._connections client_id =
      some { client_id := client_id, connection_type := client_type,
             run_hash := some run_hash } ∧
    client_id ∈ runConnsGet (mgr.connect client_id run_hash
        client_type).1._run_connections run_hash ∧
    handleFrame client_type run_hash sendOk mgr (Frame.wellFormed data) =
      (mgr, [LoopOut.toSelf (WsMessage.errorMsg "unknown_client_type"
        ("Unknown client type: " ++ client_type))]) := by
  refine ⟨?_, ?_, ?_⟩
  · simp [ControlConnectionManager.connect, dictLookup_dictInsert_self]
  · simp [ControlConnectionManager.connect, runConnsGet, dictInsert,
      dictLookup]
    exact setAdd_mem _ _
  · simp [handleFrame, h1, h2]

/-- Witness for the amended C8: type `bogus` on the fresh manager, with an
empty well-formed frame. -/
theorem unknown_type_accepted_then_errored_witness :
    ("bogus" : String) ≠ ConnectionType.TRAINING ∧
    ("bogus" : String) ≠ ConnectionType.UI ∧
    (dictLookup (ControlConnectionManager.init.connect "c1" "r1"
        "bogus").1._connections "c1" =
      some { client_id := "c1", connection_type := "bogus",
             run_hash := some "r1" } ∧
    "c1" ∈ runConnsGet (ControlConnectionManager.init.connect "c1" "r1"
        "bogus").1._run_connections "r1" ∧
    handleFrame "bogus" "r1" (fun _ => true) ControlConnectionManager.init
        (Frame.wellFormed {}) =
      (ControlConnectionManager.init,
        [LoopOut.toSelf (WsMessage.errorMsg "unknown_client_type"
          ("Unknown client type: " ++ "bogus"))])) :=
  ⟨by decide, by decide,
    unknown_type_accepted_then_errored ControlConnectionManager.init
      (fun _ => true) "c1" "r1" "bogus" {} (by decide) (by decide)⟩

/-- Claim C1: `send_command_to_training` stores the command in the
`CommandStore` unconditionally — durability precedes any delivery attempt —
and when the snapshot of training-type connections for the run is empty it
returns `False` with nothing delivered, while `get_command` still returns
the command, whose status is `pending` (as `Command.from_dict` sets it for a
frame without a `status` key). -/
theorem send_command_durable_before_delivery
    (mgr : ControlConnectionManager) (sendOk : String → Bool)
    (run_hash : String) (command : Command)
    (h : command.status = CommandStatus.pending) :
    (mgr.send_command_to_training sendOk run_hash command).1.command_store =
      mgr.command_store.add_command command ∧
    (mgr._get_training_clients run_hash = [] →
      (mgr.send_command_to_training sendOk run_hash command).2.1 = false ∧
      (mgr.send_command_to_training sendOk run_hash command).2.2 = [] ∧
      (mgr.send_command_to_training sendOk run_hash
          command).1.command_store.get_command command.id =
        some command ∧
      command.status = CommandStatus.pending) ∧
    (∀ data : FrameData, ∀ c2 : Command,
      Command.from_dict data = Except.ok c2 → data.status = none →
        c2.status = CommandStatus.pending) := by
  have hsnap : ({ mgr with command_store :=
      mgr.command_store.add_command command } :
        ControlConnectionManager)._get_training_clients run_hash =
      mgr._get_training_clients run_hash := rfl
  refine ⟨?_, ?_, ?_⟩
  · simp only [ControlConnectionManager.send_command_to_training]
    split
    · rfl
    · simp [sendToEach_command_store]
  · intro hempty
    have hval : mgr._get_training_clients run_hash = [] := hempty
    refine ⟨?_, ?_, ?_, h⟩
    · simp [ControlConnectionManager.send_command_to_training, hsnap, hval]
    · simp [ControlConnectionManager.send_command_to_training, hsnap, hval]
    · simp [ControlConnectionManager.send_command_to_training, hsnap, hval,
        get_command_add_self]
  · intro data c2 hok hnone
    unfold Command.from_dict at hok
    rw [hnone] at hok
    simp [CommandStatus.ofString] at hok
    split at hok
    · simp at hok
    · split at hok
      · simp at hok
      · split at hok
        · simp at hok
        · simp at hok
          rw [← hok]

/-- Witness for C1: the fresh manager has no training clients for `r1`, so
sending `cmdPause` stores it, returns `false`, delivers nothing, and
`get_command` finds it still `pending`. -/
theorem send_command_durable_before_delivery_witness :
    cmdPause.status = CommandStatus.pending ∧
    ((ControlConnectionManager.init.send_command_to_training (fun _ => true)
        "r1" cmdPause).1.command_store =
      ControlConnectionManager.init.command_store.add_command cmdPause ∧
    (ControlConnectionManager.init._get_training_clients "r1" = [] →
      (ControlConnectionManager.init.send_command_to_training (fun _ => true)
          "r1" cmdPause).2.1 = false ∧
      (ControlConnectionManager.init.send_command_to_training (fun _ => true)
          "r1" cmdPause).2.2 = [] ∧
      (ControlConnectionManager.init.send_command_to_training (fun _ => true)
          "r1" cmdPause).1.command_store.get_command cmdPause.id =
        some cmdPause ∧
      cmdPause.status = CommandStatus.pending) ∧
    (∀ data : FrameData, ∀ c2 : Command,
      Command.from_dict data = Except.ok c2 → data.status = none →
        c2.status = CommandStatus.pending)) :=
  ⟨by decide, send_command_durable_before_delivery
    ControlConnectionManager.init (fun _ => true) "r1" cmdPause (by decide)⟩
